import Mathlib

/-!
Verification of the M4RL surrogate-model / RL-environment core
(`2_surrogate_model/surrogate_model_verification.py`).

The development shallowly embeds, over exact real arithmetic:
  * the feed-forward density network `DNN` (tanh hidden layers, linear output),
  * the pharmacokinetic closed-form integrators `RL_dNN.f_CSF1RI` and
    `RL_dNN.f_IGF1RI`,
  * the surrogate prediction `RL_dNN.predict_DRL_FP`, and
  * the RL environment `Env` (`reset` and `step`) with its reward and
    termination logic,
and proves the behavioural properties of these components.

Machine floats are modelled by exact real numbers; the substep-count
computation `int(interval / dt_cyto)` is modelled over the rationals with
explicit truncation toward zero, and the fallible tensor writes of the
integrators (out-of-bounds write when the substep count is below one) are
modelled by `Option`-valued results.
-/

/-- Truncation toward zero of a rational, the semantics of Python `int()`
applied to a real quotient. -/
def truncToZero (q : ℚ) : ℤ :=
  if 0 ≤ q then ⌊q⌋ else ⌈q⌉

/-! ### Fixed ODE parameters (from `RL_dNN.__init__`) -/

/-- `self.q_c = 0.8` -/
noncomputable def q_c : ℝ := 0.8
/-- `self.eta_c = 2e-3` -/
noncomputable def eta_c : ℝ := 2e-3
/-- `self.mu_c = 2e-3` -/
noncomputable def mu_c : ℝ := 2e-3
/-- `self.q_i = 0.8` -/
noncomputable def q_i : ℝ := 0.8
/-- `self.eta_i = 2e-3` -/
noncomputable def eta_i : ℝ := 2e-3
/-- `self.mu_i = 2e-3` -/
noncomputable def mu_i : ℝ := 2e-3

/-! ### The density network (`DNN`) -/

/-- Dot product of two real vectors (rows are represented as lists). -/
def dot (xs ys : List ℝ) : ℝ :=
  (List.zipWith (fun a b => a * b) xs ys).sum

/-- One affine layer: weight matrix (list of rows) and bias vector. -/
def matVec (W : List (List ℝ)) (b : List ℝ) (x : List ℝ) : List ℝ :=
  List.zipWith (fun row bi => dot row x + bi) W b

/-- The trained parameters of the `DNN` module: the hidden affine layers
(each followed by a `tanh` activation) and the final linear layer, which for
the Fokker-Planck network has output width 1 (`FP_layers` ends in `1`). -/
structure DNNmodel where
  hidden : List (List (List ℝ) × List ℝ)
  finalW : List ℝ
  finalB : ℝ

/-- `DNN.forward`: hidden affine layers with `tanh` activation, then the
final linear layer without activation. -/
noncomputable def DNNmodel.forward (nn : DNNmodel) (x : List ℝ) : ℝ :=
  dot nn.finalW
    (nn.hidden.foldl (fun v Wb => (matVec Wb.1 Wb.2 v).map Real.tanh) x)
    + nn.finalB

/-! ### The surrogate model (`RL_dNN`) -/

/-- The state of an `RL_dNN` instance after `__init__`: the 16 trained
log-scale kinetic parameters, the loaded density network, the normalization
bounds `lb`/`ub`, the constant `c_max = 1/dc` and the substep size
`dt_cyto`.  The substep size is kept as a rational so that the substep-count
division is exact. -/
structure RL_dNN where
  log_p_cyto : Fin 16 → ℝ
  dnn_TC : DNNmodel
  lb : Fin 2 → ℝ
  ub : Fin 2 → ℝ
  c_max : ℝ
  dt_cyto : ℚ

/-- `self.CSF1RI_cum_max = 200 / self.dt_cyto` -/
noncomputable def RL_dNN.CSF1RI_cum_max (m : RL_dNN) : ℝ :=
  200 / (m.dt_cyto : ℝ)

/-- `RL_dNN.net_u_CC`: normalize the five raw inputs into `[-1, 1]` and run
the density network on the feature vector `[t, C, dose_c, dose_cum, dose_I]`. -/
noncomputable def RL_dNN.net_u_CC
    (m : RL_dNN) (C t dose_c dose_cum dose_I : ℝ) : ℝ :=
  let t2 := 2 * (t - m.lb 1) / (m.ub 1 - m.lb 1) - 1
  let C2 := 2 * (C - m.lb 0) / (m.ub 0 - m.lb 0) - 1
  let dose_c2 := 2 * (dose_c - 0) - 1
  let dose_cum2 := 2 * (dose_cum - 0) / m.CSF1RI_cum_max - 1
  let dose_I2 := 2 * (dose_I - 0) - 1
  m.dnn_TC.forward [t2, C2, dose_c2, dose_cum2, dose_I2]

/-- `itera_cyto = int(interval / self.dt_cyto)`. -/
def RL_dNN.iteraCyto (m : RL_dNN) (interval : ℚ) : ℤ :=
  truncToZero (interval / m.dt_cyto)

/-- Production rate of the CSF1R-inhibitor channel:
`a = exp(log_p_cyto[10]) * q_c`. -/
noncomputable def RL_dNN.a_CSF1RI (m : RL_dNN) : ℝ :=
  Real.exp (m.log_p_cyto 10) * q_c

/-- Clearance rate of the CSF1R-inhibitor channel:
`b = exp(log_p_cyto[11]) * eta_c + exp(log_p_cyto[12]) * mu_c`. -/
noncomputable def RL_dNN.b_CSF1RI (m : RL_dNN) : ℝ :=
  Real.exp (m.log_p_cyto 11) * eta_c + Real.exp (m.log_p_cyto 12) * mu_c

/-- Production rate of the IGF1R-inhibitor channel:
`a = exp(log_p_cyto[13]) * q_i`. -/
noncomputable def RL_dNN.a_IGF1RI (m : RL_dNN) : ℝ :=
  Real.exp (m.log_p_cyto 13) * q_i

/-- Clearance rate of the IGF1R-inhibitor channel, which scales with the
current tumor-cell-count expectation `C_T`:
`b = exp(log_p_cyto[14]) * eta_i + exp(log_p_cyto[15]) * mu_i * C_T`. -/
noncomputable def RL_dNN.b_IGF1RI (m : RL_dNN) (C_T : ℝ) : ℝ :=
  Real.exp (m.log_p_cyto 14) * eta_i + Real.exp (m.log_p_cyto 15) * mu_i * C_T

/-- One substep of the closed-form pharmacokinetic update:
`c' = (c - a*dose/(a+b)) * exp(-(a+b)*dt) + a*dose/(a+b)`. -/
noncomputable def pkStep (a b dose dt c : ℝ) : ℝ :=
  (c - a * dose / (a + b)) * Real.exp (-(a + b) * dt) + a * dose / (a + b)

/-- The substep trajectory written into the tensor `c` by the loops of
`f_CSF1RI` / `f_IGF1RI`: entry `k` holds the update applied `k + 1` times to
the initial concentration. -/
noncomputable def pkTraj (a b dose dt c0 : ℝ) (n : ℕ) : List ℝ :=
  (List.range n).map (fun k => (pkStep a b dose dt)^[k + 1] c0)

/-- The tensor filled by `f_CSF1RI` when the substep count is admissible. -/
noncomputable def RL_dNN.trajCSF1RI
    (m : RL_dNN) (c_CSF1RI_0 dose_c : ℝ) (interval : ℚ) : List ℝ :=
  pkTraj m.a_CSF1RI m.b_CSF1RI dose_c (m.dt_cyto : ℝ) c_CSF1RI_0
    (m.iteraCyto interval).toNat

/-- The tensor filled by `f_IGF1RI` when the substep count is admissible. -/
noncomputable def RL_dNN.trajIGF1RI
    (m : RL_dNN) (c_IGF1RI_0 dose_I C_T : ℝ) (interval : ℚ) : List ℝ :=
  pkTraj m.a_IGF1RI (m.b_IGF1RI C_T) dose_I (m.dt_cyto : ℝ) c_IGF1RI_0
    (m.iteraCyto interval).toNat

/-- `RL_dNN.f_CSF1RI`: the CSF1R-inhibitor integrator.  When
`int(interval/dt_cyto) < 1` the Python code fails (the write `c[0] = ...`
is out of bounds for a length-0 tensor, and `torch.empty` rejects a negative
size), which is modelled by `none`. -/
noncomputable def RL_dNN.f_CSF1RI
    (m : RL_dNN) (c_CSF1RI_0 dose_c : ℝ) (interval : ℚ) : Option (List ℝ) :=
  if 1 ≤ m.iteraCyto interval then
    some (m.trajCSF1RI c_CSF1RI_0 dose_c interval)
  else none

/-- `RL_dNN.f_IGF1RI`: the IGF1R-inhibitor integrator, whose clearance rate
depends on the tumor-cell-count expectation `C_T`. -/
noncomputable def RL_dNN.f_IGF1RI
    (m : RL_dNN) (c_IGF1RI_0 dose_I C_T : ℝ) (interval : ℚ) :
    Option (List ℝ) :=
  if 1 ≤ m.iteraCyto interval then
    some (m.trajIGF1RI c_IGF1RI_0 dose_I C_T interval)
  else none

/-- `RL_dNN.predict_DRL_FP`: integrate both drugs over the interval, add the
CSF1R-inhibitor trajectory sum to the cumulative exposure, evaluate the
density network at every concentration bin with the end-of-interval drug
levels, and clamp negative outputs to zero.  Returns
`(density, updated cumulative exposure, final CSF1RI, final IGF1RI)`. -/
noncomputable def RL_dNN.predict_DRL_FP
    (m : RL_dNN) (c : List ℝ)
    (t dose_c CSF1RI_cum dose_I c_CSF1RI_0 c_IGF1RI_0 c_T_0 : ℝ)
    (interval : ℚ) : Option (List ℝ × ℝ × ℝ × ℝ) :=
  match m.f_CSF1RI c_CSF1RI_0 dose_c interval,
        m.f_IGF1RI c_IGF1RI_0 dose_I c_T_0 interval with
  | some c_CSF1RI, some c_IGF1RI =>
      let cum := CSF1RI_cum + c_CSF1RI.sum
      let c_CSF1RI_k := c_CSF1RI.getLastD 0
      let c_IGF1RI_k := c_IGF1RI.getLastD 0
      some (c.map (fun ci => max (m.net_u_CC ci t c_CSF1RI_k cum c_IGF1RI_k) 0),
            cum, c_CSF1RI_k, c_IGF1RI_k)
  | _, _ => none

/-- The density component of `predict_DRL_FP` (empty on the error branch). -/
noncomputable def RL_dNN.predictDensity
    (m : RL_dNN) (c : List ℝ)
    (t dose_c CSF1RI_cum dose_I c_CSF1RI_0 c_IGF1RI_0 c_T_0 : ℝ)
    (interval : ℚ) : List ℝ :=
  match m.predict_DRL_FP c t dose_c CSF1RI_cum dose_I c_CSF1RI_0 c_IGF1RI_0
      c_T_0 interval with
  | some r => r.1
  | none => []

/-! ### The RL environment (`Env`) -/

/-- The mutable state of an `Env` instance. -/
structure EnvState where
  state : List (ℝ × ℝ)
  predict_CSF1RI_list : List ℝ
  predict_IGF1RI_list : List ℝ
  predict_TC_list : List ℝ
  predict_CSF1RI_cum : ℝ
  CSF1RI_dose_cum : ℝ
  last_state_survival : ℝ
  time : ℝ

/-- `Env.__init__` / `Env.reset`: reinitialize the environment state from
the fixed initial `(CSF1RI, IGF1RI, TC)` triple. -/
noncomputable def envReset (initial : ℝ × ℝ × ℝ) : EnvState :=
  { state := []
    predict_CSF1RI_list := [initial.1]
    predict_IGF1RI_list := [initial.2.1]
    predict_TC_list := [initial.2.2]
    predict_CSF1RI_cum := 0
    CSF1RI_dose_cum := 0
    last_state_survival := 0
    time := 0 }

/-- `self.action_c_space = np.array([0.0, 1.0])` -/
noncomputable def action_c_space : Fin 2 → ℝ := ![0.0, 1.0]

/-- `self.action_I_space = np.array([0.0, 1.0])` -/
noncomputable def action_I_space : Fin 2 → ℝ := ![0.0, 1.0]

/-- `death_threshold = 0.2` -/
noncomputable def death_threshold : ℝ := 0.2

/-- `cure_threshold = 0.99` -/
noncomputable def cure_threshold : ℝ := 0.99

/-- `survival_prob = np.sum(rl_FP_TC[:-3, :]) / (prob_sum + 1e-7)`:
the density mass excluding the top 3 bins, over the epsilon-guarded total. -/
noncomputable def survival_prob (rl : List ℝ) : ℝ :=
  (rl.take (rl.length - 3)).sum / (rl.sum + 1e-7)

/-- `death_prob = 1 - survival_prob` -/
noncomputable def death_prob (rl : List ℝ) : ℝ :=
  1 - survival_prob rl

/-- `cure_prob = np.sum(rl_FP_TC[:1, :]) / (prob_sum + 1e-7)` -/
noncomputable def cure_prob (rl : List ℝ) : ℝ :=
  (rl.take 1).sum / (rl.sum + 1e-7)

/-- `rl_FP_TC_norm = rl_FP_TC / (np.sum(rl_FP_TC) + 1e-7)` -/
noncomputable def normalizeDensity (rl : List ℝ) : List ℝ :=
  rl.map (fun x => x / (rl.sum + 1e-7))

/-- The value returned by `Env.step` (the Python 4-tuple), together with the
updated environment state produced by the method's mutations. -/
structure StepRes where
  last_state : List (ℝ × ℝ)
  reward : ℝ
  done : Bool
  now_state : List (ℝ × ℝ)
  env : EnvState

/-- The body of `Env.step` after `predict_DRL_FP` has returned
`(rl_FP_TC, c_CSF1RI_cum, c_CSF1RI, c_IGF1RI)`: state bookkeeping, the
survival / death / cure probabilities, and the reward and termination
logic. -/
noncomputable def stepCore
    (e : EnvState) (action_c action_I : Fin 2) (epi : ℕ) (predict_dt : ℚ)
    (cc : List ℝ) (lamda : ℝ)
    (rl_FP_TC : List ℝ) (c_CSF1RI_cum c_CSF1RI c_IGF1RI : ℝ) : StepRes :=
  let time := e.time + (predict_dt : ℝ)
  let dose_c := action_c_space action_c
  let dose_cum := e.CSF1RI_dose_cum + dose_c * (predict_dt : ℝ)
  let rl_norm := normalizeDensity rl_FP_TC
  let TC_new := (List.zipWith (fun a b => a * b) rl_norm cc).sum
  let survival := survival_prob rl_FP_TC
  let death := death_prob rl_FP_TC
  let cure := cure_prob rl_FP_TC
  let dose_punish : ℝ := (2 - 1) + 1e-7
  let state_survival := (survival - (1 - death_threshold)) / death_threshold
  let delta := if epi = 0 then 0 else state_survival - e.last_state_survival
  let now_state := e.state ++ [(state_survival, delta)]
  let rewardDone : ℝ × Bool :=
    if death_threshold ≤ death then (-0.1, true)
    else if cure_threshold ≤ cure then (0.1 + 1.0, true)
    else
      let r1 : ℝ := 0.1
      let r2 := if death_threshold * 0.5 ≤ death then
          r1 - 0.1 * (dose_punish - ((action_c : ℕ) : ℝ))
        else if (action_c : ℕ) = 0 then r1 + 0.05 else r1
      let r3 := if survival ≤ 0.9 then
          r2 - 0.1 * (dose_punish - ((action_I : ℕ) : ℝ))
        else if (action_I : ℕ) = 0 then r2 + 0.05 else r2
      let r4 := if 0.9 < survival then r3 + lamda * (time - dose_cum) else r3
      (r4, false)
  { last_state := e.state
    reward := rewardDone.1
    done := rewardDone.2
    now_state := now_state
    env :=
      { state := now_state
        predict_CSF1RI_list := e.predict_CSF1RI_list ++ [c_CSF1RI]
        predict_IGF1RI_list := e.predict_IGF1RI_list ++ [c_IGF1RI]
        predict_TC_list := e.predict_TC_list ++ [TC_new]
        predict_CSF1RI_cum := c_CSF1RI_cum
        CSF1RI_dose_cum := dose_cum
        last_state_survival := state_survival
        time := time } }

/-- `Env.step`: advance time, look up the doses, accumulate the
CSF1R-inhibitor dose-time product, call the surrogate model with the last
recorded concentrations, and run the reward / termination logic.  `none`
models the propagated failure of the integrators. -/
noncomputable def envStep
    (m : RL_dNN) (e : EnvState) (action_c action_I : Fin 2) (epi : ℕ)
    (predict_dt : ℚ) (cc : List ℝ) (lamda : ℝ) : Option StepRes :=
  match m.predict_DRL_FP cc (e.time + (predict_dt : ℝ))
      (action_c_space action_c) e.predict_CSF1RI_cum
      (action_I_space action_I) (e.predict_CSF1RI_list.getLastD 0)
      (e.predict_IGF1RI_list.getLastD 0) (e.predict_TC_list.getLastD 0)
      predict_dt with
  | none => none
  | some (rl_FP_TC, c_CSF1RI_cum, c_CSF1RI, c_IGF1RI) =>
      some (stepCore e action_c action_I epi predict_dt cc lamda
        rl_FP_TC c_CSF1RI_cum c_CSF1RI c_IGF1RI)

/-- The density vector that a given `envStep` call derives its
probabilities from. -/
noncomputable def stepDensity
    (m : RL_dNN) (e : EnvState) (action_c action_I : Fin 2)
    (predict_dt : ℚ) (cc : List ℝ) : List ℝ :=
  m.predictDensity cc (e.time + (predict_dt : ℝ)) (action_c_space action_c)
    e.predict_CSF1RI_cum (action_I_space action_I)
    (e.predict_CSF1RI_list.getLastD 0) (e.predict_IGF1RI_list.getLastD 0)
    (e.predict_TC_list.getLastD 0) predict_dt

/-- One step's worth of arguments in a sequence of `Env.step` calls. -/
structure StepIn where
  ac : Fin 2
  aI : Fin 2
  epi : ℕ
  dt : ℚ
  cc : List ℝ
  lamda : ℝ

/-- Run a sequence of `Env.step` calls from a given environment state,
propagating failure. -/
noncomputable def runSteps (m : RL_dNN) : EnvState → List StepIn → Option EnvState
  | e, [] => some e
  | e, i :: is =>
      match envStep m e i.ac i.aI i.epi i.dt i.cc i.lamda with
      | none => none
      | some r => runSteps m r.env is

/-! ### Basic lemmas about the truncated substep count -/

lemma truncToZero_natCast (n : ℕ) : truncToZero (n : ℚ) = (n : ℤ) := by
  simp [truncToZero]

lemma one_le_truncToZero_iff (q : ℚ) : 1 ≤ truncToZero q ↔ 1 ≤ q := by
  unfold truncToZero
  split
  · rw [Int.le_floor]
    norm_num
  · rename_i h
    push_neg at h
    constructor
    · intro h1
      have : ⌈q⌉ ≤ 0 := Int.ceil_le.mpr (by exact_mod_cast h.le)
      omega
    · intro h1
      linarith

lemma truncToZero_eq_zero (q : ℚ) (h0 : 0 ≤ q) (h1 : q < 1) :
    truncToZero q = 0 := by
  unfold truncToZero
  rw [if_pos h0]
  exact Int.floor_eq_zero_iff.mpr ⟨h0, h1⟩

/-! ### Lemmas about the substep trajectory -/

lemma pkTraj_length (a b dose dt c0 : ℝ) (n : ℕ) :
    (pkTraj a b dose dt c0 n).length = n := by
  simp [pkTraj]

lemma pkTraj_head (a b dose dt c0 : ℝ) (n : ℕ) (h : 0 < n) :
    (pkTraj a b dose dt c0 n).head? = some (pkStep a b dose dt c0) := by
  obtain ⟨k, rfl⟩ := Nat.exists_eq_succ_of_ne_zero h.ne'
  simp [pkTraj, List.range_succ_eq_map]

lemma pkTraj_get_succ (a b dose dt c0 : ℝ) (n : ℕ) (k : ℕ)
    (h1 : k + 1 < (pkTraj a b dose dt c0 n).length)
    (h2 : k < (pkTraj a b dose dt c0 n).length) :
    (pkTraj a b dose dt c0 n).get ⟨k + 1, h1⟩ =
      pkStep a b dose dt ((pkTraj a b dose dt c0 n).get ⟨k, h2⟩) := by
  simp only [pkTraj_length] at h1 h2
  simp only [pkTraj, List.get_eq_getElem, List.getElem_map, List.getElem_range]
  rw [Function.iterate_succ_apply']

/-! ### Unfolding lemmas for the integrators and the surrogate model -/

lemma RL_dNN.f_CSF1RI_eq_some (m : RL_dNN) (c0 dose : ℝ) (interval : ℚ)
    (h : 1 ≤ m.iteraCyto interval) :
    m.f_CSF1RI c0 dose interval = some (m.trajCSF1RI c0 dose interval) :=
  if_pos h

lemma RL_dNN.f_IGF1RI_eq_some (m : RL_dNN) (c0 dose C_T : ℝ) (interval : ℚ)
    (h : 1 ≤ m.iteraCyto interval) :
    m.f_IGF1RI c0 dose C_T interval = some (m.trajIGF1RI c0 dose C_T interval) :=
  if_pos h

lemma RL_dNN.f_CSF1RI_eq_none (m : RL_dNN) (c0 dose : ℝ) (interval : ℚ)
    (h : ¬ 1 ≤ m.iteraCyto interval) :
    m.f_CSF1RI c0 dose interval = none :=
  if_neg h

lemma RL_dNN.f_IGF1RI_eq_none (m : RL_dNN) (c0 dose C_T : ℝ) (interval : ℚ)
    (h : ¬ 1 ≤ m.iteraCyto interval) :
    m.f_IGF1RI c0 dose C_T interval = none :=
  if_neg h

lemma RL_dNN.predict_eq_some (m : RL_dNN) (c : List ℝ)
    (t dose_c CSF1RI_cum dose_I c_CSF1RI_0 c_IGF1RI_0 c_T_0 : ℝ)
    (interval : ℚ) (h : 1 ≤ m.iteraCyto interval) :
    m.predict_DRL_FP c t dose_c CSF1RI_cum dose_I c_CSF1RI_0 c_IGF1RI_0
        c_T_0 interval =
      some (c.map (fun ci => max (m.net_u_CC ci t
              ((m.trajCSF1RI c_CSF1RI_0 dose_c interval).getLastD 0)
              (CSF1RI_cum + (m.trajCSF1RI c_CSF1RI_0 dose_c interval).sum)
              ((m.trajIGF1RI c_IGF1RI_0 dose_I c_T_0 interval).getLastD 0)) 0),
            CSF1RI_cum + (m.trajCSF1RI c_CSF1RI_0 dose_c interval).sum,
            (m.trajCSF1RI c_CSF1RI_0 dose_c interval).getLastD 0,
            (m.trajIGF1RI c_IGF1RI_0 dose_I c_T_0 interval).getLastD 0) := by
  rw [RL_dNN.predict_DRL_FP, m.f_CSF1RI_eq_some _ _ _ h,
    m.f_IGF1RI_eq_some _ _ _ _ h]

lemma RL_dNN.predict_eq_none (m : RL_dNN) (c : List ℝ)
    (t dose_c CSF1RI_cum dose_I c_CSF1RI_0 c_IGF1RI_0 c_T_0 : ℝ)
    (interval : ℚ) (h : ¬ 1 ≤ m.iteraCyto interval) :
    m.predict_DRL_FP c t dose_c CSF1RI_cum dose_I c_CSF1RI_0 c_IGF1RI_0
        c_T_0 interval = none := by
  rw [RL_dNN.predict_DRL_FP, m.f_CSF1RI_eq_none _ _ _ h,
    m.f_IGF1RI_eq_none _ _ _ _ h]

lemma stepDensity_eq (m : RL_dNN) (e : EnvState) (ac aI : Fin 2)
    (dt : ℚ) (cc : List ℝ) (h : 1 ≤ m.iteraCyto dt) :
    stepDensity m e ac aI dt cc =
      cc.map (fun ci => max (m.net_u_CC ci (e.time + (dt : ℝ))
        ((m.trajCSF1RI (e.predict_CSF1RI_list.getLastD 0)
            (action_c_space ac) dt).getLastD 0)
        (e.predict_CSF1RI_cum + (m.trajCSF1RI (e.predict_CSF1RI_list.getLastD 0)
            (action_c_space ac) dt).sum)
        ((m.trajIGF1RI (e.predict_IGF1RI_list.getLastD 0)
            (action_I_space aI) (e.predict_TC_list.getLastD 0) dt).getLastD 0)) 0) := by
  rw [stepDensity, RL_dNN.predictDensity, m.predict_eq_some _ _ _ _ _ _ _ _ _ h]

lemma envStep_eq (m : RL_dNN) (e : EnvState) (ac aI : Fin 2) (epi : ℕ)
    (dt : ℚ) (cc : List ℝ) (lamda : ℝ) (h : 1 ≤ m.iteraCyto dt) :
    envStep m e ac aI epi dt cc lamda =
      some (stepCore e ac aI epi dt cc lamda
        (stepDensity m e ac aI dt cc)
        (e.predict_CSF1RI_cum + (m.trajCSF1RI (e.predict_CSF1RI_list.getLastD 0)
            (action_c_space ac) dt).sum)
        ((m.trajCSF1RI (e.predict_CSF1RI_list.getLastD 0)
            (action_c_space ac) dt).getLastD 0)
        ((m.trajIGF1RI (e.predict_IGF1RI_list.getLastD 0)
            (action_I_space aI) (e.predict_TC_list.getLastD 0) dt).getLastD 0)) := by
  rw [envStep, m.predict_eq_some _ _ _ _ _ _ _ _ _ h,
    stepDensity_eq m e ac aI dt cc h]

lemma envStep_eq_none (m : RL_dNN) (e : EnvState) (ac aI : Fin 2) (epi : ℕ)
    (dt : ℚ) (cc : List ℝ) (lamda : ℝ) (h : ¬ 1 ≤ m.iteraCyto dt) :
    envStep m e ac aI epi dt cc lamda = none := by
  rw [envStep, m.predict_eq_none _ _ _ _ _ _ _ _ _ h]

lemma envStep_some_itera (m : RL_dNN) (e : EnvState) (ac aI : Fin 2)
    (epi : ℕ) (dt : ℚ) (cc : List ℝ) (lamda : ℝ) (r : StepRes)
    (h : envStep m e ac aI epi dt cc lamda = some r) :
    1 ≤ m.iteraCyto dt := by
  by_contra hn
  rw [envStep_eq_none m e ac aI epi dt cc lamda hn] at h
  exact Option.noConfusion h

/-! ### Concrete instances used to exercise the theorems -/

/-- A concrete `RL_dNN` whose density network has no hidden layers, an empty
final weight row and bias 1, so that the network output is constantly 1. -/
noncomputable def m0 : RL_dNN where
  log_p_cyto := fun _ => 0
  dnn_TC := { hidden := [], finalW := [], finalB := 1 }
  lb := fun _ => 0
  ub := fun _ => 1
  c_max := 100
  dt_cyto := 1/48

/-- A concrete `RL_dNN` whose density network reads only the concentration
bin: output `(11 + 4e-7) * (2*C - 1) + 1`.  On the bins `[1, 1/2, 1/2, 1/2]`
it produces the density `[12 + 4e-7, 1, 1, 1]`, whose death probability is
exactly the threshold `0.2`. -/
noncomputable def m1 : RL_dNN where
  log_p_cyto := fun _ => 0
  dnn_TC := { hidden := [], finalW := [0, 11 + 4e-7, 0, 0, 0], finalB := 1 }
  lb := fun _ => 0
  ub := fun _ => 1
  c_max := 100
  dt_cyto := 1/48

/-- The environment state after `reset` with the initial conditions of
`main()` (`initial_CSF1RI = 0`, `initial_IGF1RI = 0`, `initial_TC = 0.58`). -/
noncomputable def e0 : EnvState := envReset (0, 0, 0.58)

/-- Twenty zero-valued concentration bins. -/
noncomputable def cc20 : List ℝ := List.replicate 20 0

lemma m0_dt : m0.dt_cyto = 1/48 := rfl

lemma m1_dt : m1.dt_cyto = 1/48 := rfl

lemma iteraCyto_m0_dt : m0.iteraCyto (1/48) = 1 := by
  norm_num [RL_dNN.iteraCyto, truncToZero, m0_dt]

lemma iteraCyto_m1_dt : m1.iteraCyto (1/48) = 1 := by
  norm_num [RL_dNN.iteraCyto, truncToZero, m1_dt]

lemma net_m0 (C t dose_c dose_cum dose_I : ℝ) :
    m0.net_u_CC C t dose_c dose_cum dose_I = 1 := by
  simp [RL_dNN.net_u_CC, DNNmodel.forward, dot, m0]

lemma net_m1 (C t dose_c dose_cum dose_I : ℝ) :
    m1.net_u_CC C t dose_c dose_cum dose_I =
      (11 + 4e-7) * (2 * C - 1) + 1 := by
  simp only [RL_dNN.net_u_CC, DNNmodel.forward, dot, m1, List.foldl_nil,
    List.zipWith_cons_cons, List.zipWith_nil_left, List.sum_cons,
    List.sum_nil]
  ring_nf

lemma stepDensity_m0 (e : EnvState) (ac aI : Fin 2) (cc : List ℝ) :
    stepDensity m0 e ac aI (1/48) cc = cc.map (fun _ => (1 : ℝ)) := by
  rw [stepDensity_eq m0 e ac aI (1/48) cc (by rw [iteraCyto_m0_dt])]
  simp [net_m0]

lemma stepDensity_m1 (e : EnvState) (ac aI : Fin 2) :
    stepDensity m1 e ac aI (1/48) [1, 1/2, 1/2, 1/2] =
      [12 + 4e-7, 1, 1, 1] := by
  rw [stepDensity_eq m1 e ac aI (1/48) _ (by rw [iteraCyto_m1_dt])]
  simp only [List.map_cons, List.map_nil, net_m1]
  norm_num

lemma death_prob_m1_boundary :
    death_prob [12 + 4e-7, 1, 1, 1] = (0.2 : ℝ) := by
  norm_num [death_prob, survival_prob]

lemma stepDensity_m0_cc20 (e : EnvState) (ac aI : Fin 2) :
    stepDensity m0 e ac aI (1/48) cc20 = List.replicate 20 (1 : ℝ) := by
  rw [cc20, stepDensity_m0]
  simp

lemma survival_prob_ones20 :
    survival_prob (List.replicate 20 (1 : ℝ)) = 17 / (20 + 1e-7) := by
  norm_num [survival_prob, List.take_replicate]

/-! ### Claim C1: the pharmacokinetic integrators -/

/-- C1: For every interval that is a positive integer multiple of the
substep size `dt_cyto`, `f_CSF1RI` (and likewise `f_IGF1RI`) returns a
trajectory of exactly `interval / dt_cyto` values; the first value equals
the closed-form update
`(c0 - a*dose/(a+b)) * exp(-(a+b)*dt_cyto) + a*dose/(a+b)` applied once to
the initial concentration, and each later value equals that update applied
to its predecessor.  For a general admissible interval the substep count is
`int(interval / dt_cyto)`, truncated toward zero. -/
theorem pk_integrator_correct (m : RL_dNN)
    (c_CSF1RI_0 c_IGF1RI_0 dose_c dose_I C_T : ℝ) (interval : ℚ) (n : ℕ)
    (hdt : 0 < m.dt_cyto) (hn : 1 ≤ n) (hi : interval = (n : ℚ) * m.dt_cyto) :
    (∃ l, m.f_CSF1RI c_CSF1RI_0 dose_c interval = some l ∧ l.length = n ∧
      l.head? = some
        ((c_CSF1RI_0 - m.a_CSF1RI * dose_c / (m.a_CSF1RI + m.b_CSF1RI)) *
          Real.exp (-(m.a_CSF1RI + m.b_CSF1RI) * (m.dt_cyto : ℝ)) +
          m.a_CSF1RI * dose_c / (m.a_CSF1RI + m.b_CSF1RI)) ∧
      ∀ k : ℕ, ∀ h1 : k + 1 < l.length, ∀ h2 : k < l.length,
        l.get ⟨k + 1, h1⟩ =
          (l.get ⟨k, h2⟩ - m.a_CSF1RI * dose_c / (m.a_CSF1RI + m.b_CSF1RI)) *
            Real.exp (-(m.a_CSF1RI + m.b_CSF1RI) * (m.dt_cyto : ℝ)) +
            m.a_CSF1RI * dose_c / (m.a_CSF1RI + m.b_CSF1RI)) ∧
    (∃ l, m.f_IGF1RI c_IGF1RI_0 dose_I C_T interval = some l ∧ l.length = n ∧
      l.head? = some
        ((c_IGF1RI_0 - m.a_IGF1RI * dose_I / (m.a_IGF1RI + m.b_IGF1RI C_T)) *
          Real.exp (-(m.a_IGF1RI + m.b_IGF1RI C_T) * (m.dt_cyto : ℝ)) +
          m.a_IGF1RI * dose_I / (m.a_IGF1RI + m.b_IGF1RI C_T)) ∧
      ∀ k : ℕ, ∀ h1 : k + 1 < l.length, ∀ h2 : k < l.length,
        l.get ⟨k + 1, h1⟩ =
          (l.get ⟨k, h2⟩ - m.a_IGF1RI * dose_I / (m.a_IGF1RI + m.b_IGF1RI C_T)) *
            Real.exp (-(m.a_IGF1RI + m.b_IGF1RI C_T) * (m.dt_cyto : ℝ)) +
            m.a_IGF1RI * dose_I / (m.a_IGF1RI + m.b_IGF1RI C_T)) ∧
    (∀ iv : ℚ, 1 ≤ m.iteraCyto iv →
      ∃ l l2, m.f_CSF1RI c_CSF1RI_0 dose_c iv = some l ∧
        m.f_IGF1RI c_IGF1RI_0 dose_I C_T iv = some l2 ∧
        l.length = (m.iteraCyto iv).toNat ∧
        l2.length = (m.iteraCyto iv).toNat) := by
  have hit : m.iteraCyto interval = (n : ℤ) := by
    rw [RL_dNN.iteraCyto, hi, mul_div_assoc, div_self hdt.ne', mul_one,
      truncToZero_natCast]
  have hge : 1 ≤ m.iteraCyto interval := by rw [hit]; exact_mod_cast hn
  have hpos : 0 < n := hn
  refine ⟨⟨m.trajCSF1RI c_CSF1RI_0 dose_c interval,
      m.f_CSF1RI_eq_some _ _ _ hge, ?_, ?_, ?_⟩,
    ⟨m.trajIGF1RI c_IGF1RI_0 dose_I C_T interval,
      m.f_IGF1RI_eq_some _ _ _ _ hge, ?_, ?_, ?_⟩, ?_⟩
  · rw [RL_dNN.trajCSF1RI, hit, Int.toNat_natCast, pkTraj_length]
  · rw [RL_dNN.trajCSF1RI, hit, Int.toNat_natCast, pkTraj_head _ _ _ _ _ _ hpos,
      pkStep]
  · intro k h1 h2
    exact pkTraj_get_succ m.a_CSF1RI m.b_CSF1RI dose_c (m.dt_cyto : ℝ)
      c_CSF1RI_0 (m.iteraCyto interval).toNat k h1 h2
  · rw [RL_dNN.trajIGF1RI, hit, Int.toNat_natCast, pkTraj_length]
  · rw [RL_dNN.trajIGF1RI, hit, Int.toNat_natCast, pkTraj_head _ _ _ _ _ _ hpos,
      pkStep]
  · intro k h1 h2
    exact pkTraj_get_succ m.a_IGF1RI (m.b_IGF1RI C_T) dose_I (m.dt_cyto : ℝ)
      c_IGF1RI_0 (m.iteraCyto interval).toNat k h1 h2
  · intro iv hgev
    exact ⟨m.trajCSF1RI c_CSF1RI_0 dose_c iv,
      m.trajIGF1RI c_IGF1RI_0 dose_I C_T iv,
      m.f_CSF1RI_eq_some _ _ _ hgev, m.f_IGF1RI_eq_some _ _ _ _ hgev,
      by rw [RL_dNN.trajCSF1RI, pkTraj_length],
      by rw [RL_dNN.trajIGF1RI, pkTraj_length]⟩

/-- C1 witness: on the concrete model `m0` (substep size `1/48`), the
interval `1/24 = 2 * (1/48)` yields a two-element CSF1R-inhibitor
trajectory. -/
theorem pk_integrator_correct_witness :
    ∃ l, m0.f_CSF1RI 0 1 (1/24) = some l ∧ l.length = 2 := by
  obtain ⟨⟨l, hl, hlen, -, -⟩, -, -⟩ :=
    pk_integrator_correct m0 0 0 1 1 0 (1/24) 2
      (by rw [m0_dt]; norm_num) (by norm_num) (by rw [m0_dt]; norm_num)
  exact ⟨l, hl, hlen⟩

/-! ### Claim C7: the kinetic rates -/

/-- C7: The rates are exponentials of the trained log-parameters: for
CSF1RI, `a = exp(log_p[10])*q_c` and `b = exp(log_p[11])*eta_c +
exp(log_p[12])*mu_c` with no dependence on the tumor-cell expectation (the
expression is closed, with no `C_T` argument); for IGF1RI,
`a = exp(log_p[13])*q_i` and `b = exp(log_p[14])*eta_i +
exp(log_p[15])*mu_i*C_T`, which genuinely depends on `C_T`: distinct
tumor-cell expectations give distinct clearance rates. -/
theorem kinetic_rates_from_log_params (m : RL_dNN) (C_T C_T2 : ℝ)
    (hne : C_T ≠ C_T2) :
    m.a_CSF1RI = Real.exp (m.log_p_cyto 10) * 0.8 ∧
    m.b_CSF1RI = Real.exp (m.log_p_cyto 11) * 2e-3 +
      Real.exp (m.log_p_cyto 12) * 2e-3 ∧
    m.a_IGF1RI = Real.exp (m.log_p_cyto 13) * 0.8 ∧
    (∀ x : ℝ, m.b_IGF1RI x = Real.exp (m.log_p_cyto 14) * 2e-3 +
      Real.exp (m.log_p_cyto 15) * 2e-3 * x) ∧
    m.b_IGF1RI C_T ≠ m.b_IGF1RI C_T2 := by
  refine ⟨rfl, rfl, rfl, fun x => rfl, fun h => hne ?_⟩
  rw [RL_dNN.b_IGF1RI, RL_dNN.b_IGF1RI, add_right_inj] at h
  have hpos : (0 : ℝ) < Real.exp (m.log_p_cyto 15) * mu_i := by
    have hmu : (0 : ℝ) < mu_i := by rw [mu_i]; norm_num
    positivity
  exact mul_left_cancel₀ hpos.ne' h

/-- C7 witness: on the concrete model `m0`, tumor-cell expectations `0`
and `1` give different IGF1RI clearance rates. -/
theorem kinetic_rates_from_log_params_witness :
    m0.b_IGF1RI 0 ≠ m0.b_IGF1RI 1 :=
  (kinetic_rates_from_log_params m0 0 1 (by norm_num)).2.2.2.2

/-! ### Claim C10 (corrected): the substep-count guard -/

/-- C10 counterexample: the claim asserts that for EVERY interval strictly
smaller than the substep size the substep count truncates to `0`.  On `m0`
(substep size `1/48`), the interval `-1` is strictly smaller than `1/48`,
yet `int(interval/dt_cyto) = -48 ≠ 0` (truncation toward zero of a negative
quotient is negative, not zero). -/
theorem pk_truncation_cex :
    (-1 : ℚ) < m0.dt_cyto ∧ m0.iteraCyto (-1) ≠ 0 := by
  constructor
  · rw [m0_dt]; norm_num
  · rw [RL_dNN.iteraCyto, m0_dt]
    have h48 : ((-1 : ℚ) / (1/48)) = ((-48 : ℤ) : ℚ) := by norm_num
    rw [h48]
    simp only [truncToZero]
    rw [if_neg (by norm_num), Int.ceil_intCast]
    norm_num

/-- C10 (amended): for every NONNEGATIVE interval strictly smaller than the
substep size, the substep count truncates to `0`, the trajectory tensor is
empty, and both integrators hit the error branch (`none`, the out-of-bounds
write to the first element); in general each integrator succeeds exactly
when `int(interval/dt_cyto) ≥ 1`, so callers must never pass an interval
below one substep. -/
theorem pk_substep_guard (m : RL_dNN)
    (c_CSF1RI_0 c_IGF1RI_0 dose_c dose_I C_T : ℝ) (interval : ℚ)
    (hdt : 0 < m.dt_cyto) :
    (0 ≤ interval → interval < m.dt_cyto →
      m.iteraCyto interval = 0 ∧
      (m.trajCSF1RI c_CSF1RI_0 dose_c interval).length = 0 ∧
      m.f_CSF1RI c_CSF1RI_0 dose_c interval = none ∧
      m.f_IGF1RI c_IGF1RI_0 dose_I C_T interval = none) ∧
    ((m.f_CSF1RI c_CSF1RI_0 dose_c interval).isSome ↔
      1 ≤ m.iteraCyto interval) ∧
    ((m.f_IGF1RI c_IGF1RI_0 dose_I C_T interval).isSome ↔
      1 ≤ m.iteraCyto interval) := by
  refine ⟨fun h0 hlt => ?_, ?_, ?_⟩
  · have hz : m.iteraCyto interval = 0 := by
      rw [RL_dNN.iteraCyto]
      exact truncToZero_eq_zero _ (div_nonneg h0 hdt.le)
        ((div_lt_one hdt).mpr hlt)
    have hnot : ¬ 1 ≤ m.iteraCyto interval := by omega
    refine ⟨hz, ?_, m.f_CSF1RI_eq_none _ _ _ hnot,
      m.f_IGF1RI_eq_none _ _ _ _ hnot⟩
    rw [RL_dNN.trajCSF1RI, pkTraj_length, hz]
    rfl
  · rw [RL_dNN.f_CSF1RI]
    split
    · rename_i hc
      simp [hc]
    · rename_i hc
      simp [hc]
  · rw [RL_dNN.f_IGF1RI]
    split
    · rename_i hc
      simp [hc]
    · rename_i hc
      simp [hc]

/-- C10 witness: on `m0` (substep size `1/48`), the nonnegative interval
`1/96` is below one substep and the CSF1R-inhibitor integrator fails. -/
theorem pk_substep_guard_witness :
    m0.f_CSF1RI 0 1 (1/96) = none := by
  obtain ⟨h1, -, -⟩ :=
    pk_substep_guard m0 0 0 1 1 0 (1/96) (by rw [m0_dt]; norm_num)
  exact (h1 (by norm_num) (by rw [m0_dt]; norm_num)).2.2.1

/-! ### Claim C3: shape and nonnegativity of the predicted density -/

/-- C3: Whenever `predict_DRL_FP` succeeds, the returned density vector has
exactly one entry per supplied concentration bin and every entry is
nonnegative — the clamp-to-zero is applied to every raw network output,
whatever its sign.  (The embedding is a pure function of the model value,
so the loaded parameters are never mutated.) -/
theorem predict_density_shape_nonneg (m : RL_dNN) (c : List ℝ)
    (t dose_c CSF1RI_cum dose_I c_CSF1RI_0 c_IGF1RI_0 c_T_0 : ℝ)
    (interval : ℚ) (h : 1 ≤ m.iteraCyto interval) :
    ∃ dens cum cC cI,
      m.predict_DRL_FP c t dose_c CSF1RI_cum dose_I c_CSF1RI_0 c_IGF1RI_0
          c_T_0 interval = some (dens, cum, cC, cI) ∧
      dens.length = c.length ∧ ∀ x ∈ dens, 0 ≤ x := by
  refine ⟨_, _, _, _, m.predict_eq_some _ _ _ _ _ _ _ _ _ h, ?_, ?_⟩
  · simp
  · intro x hx
    simp only [List.mem_map] at hx
    obtain ⟨ci, -, rfl⟩ := hx
    exact le_max_right _ 0

/-- C3 witness: a concrete successful prediction on two bins returns a
two-entry density. -/
theorem predict_density_shape_nonneg_witness :
    ∃ dens cum cC cI,
      m0.predict_DRL_FP [0, 1] 0 1 0 1 0 0 0.58 (1/48) =
        some (dens, cum, cC, cI) ∧ dens.length = 2 := by
  obtain ⟨dens, cum, cC, cI, hp, hlen, -⟩ :=
    predict_density_shape_nonneg m0 [0, 1] 0 1 0 1 0 0 0.58 (1/48)
      (by rw [iteraCyto_m0_dt])
  exact ⟨dens, cum, cC, cI, hp, by simpa using hlen⟩

/-! ### Claim C9 (corrected): normalization round-trip -/

lemma zipWith_map_div (v c : List ℝ) (k : ℝ) :
    (List.zipWith (fun a b => a * b) (v.map (fun x => x / k)) c).sum =
      (List.zipWith (fun a b => a * b) v c).sum / k := by
  induction v generalizing c with
  | nil => simp
  | cons x xs ih =>
    cases c with
    | nil => simp
    | cons y ys =>
      simp only [List.map_cons, List.zipWith_cons_cons, List.sum_cons,
        ih ys, add_div, div_mul_eq_mul_div]

/-- C9 counterexample: the claim equates the normalized weighted mean with
the raw weighted mean divided by the UNGUARDED sum.  On the density `[1]`
with bin centers `[1]`, the left side is `1/(1 + 1e-7)` but the right side
is `1/1 = 1`. -/
theorem normalize_weighted_mean_cex :
    (List.zipWith (fun a b => a * b) (normalizeDensity [1]) [(1 : ℝ)]).sum ≠
      (List.zipWith (fun a b => a * b) [(1 : ℝ)] [(1 : ℝ)]).sum /
        (List.sum [(1 : ℝ)]) := by
  simp only [normalizeDensity, List.map_cons, List.map_nil, List.sum_cons,
    List.sum_nil, List.zipWith_cons_cons, List.zipWith_nil_left]
  norm_num

/-- C9 (amended): normalizing a density vector by its epsilon-guarded sum
`(sum + 1e-7)` and then taking the weighted mean against the bin centers
equals the raw weighted mean divided by the same epsilon-guarded sum
`(sum + 1e-7)` — not by the unguarded sum. -/
theorem normalize_weighted_mean (v c : List ℝ) (_hlen : v.length = c.length) :
    (List.zipWith (fun a b => a * b) (normalizeDensity v) c).sum =
      (List.zipWith (fun a b => a * b) v c).sum / (v.sum + 1e-7) := by
  rw [normalizeDensity, zipWith_map_div]

/-- C9 witness: the amended identity at the density `[1, 1]` and bin
centers `[2, 3]`. -/
theorem normalize_weighted_mean_witness :
    (List.zipWith (fun a b => a * b) (normalizeDensity [1, 1])
        [(2 : ℝ), 3]).sum =
      (List.zipWith (fun a b => a * b) [(1 : ℝ), 1] [(2 : ℝ), 3]).sum /
        (List.sum [(1 : ℝ), 1] + 1e-7) :=
  normalize_weighted_mean [1, 1] [2, 3] rfl

/-! ### Claim C2: terminal branches of `Env.step` -/

/-- C2: For the density vector computed in a successful `Env.step`: if the
death probability is at least `0.2` (boundary inclusive), the episode is
done and the reward is exactly `-0.1`; otherwise, if the cure probability
is at least `0.99` (boundary inclusive; this branch is only reached when
the death branch did not trigger), the episode is done and the reward is
exactly `1.1`. -/
theorem step_terminal_boundary (m : RL_dNN) (e : EnvState) (ac aI : Fin 2)
    (epi : ℕ) (dt : ℚ) (cc : List ℝ) (lamda : ℝ)
    (hn : 1 ≤ m.iteraCyto dt) :
    ∃ r, envStep m e ac aI epi dt cc lamda = some r ∧
      (0.2 ≤ death_prob (stepDensity m e ac aI dt cc) →
        r.done = true ∧ r.reward = -0.1) ∧
      (death_prob (stepDensity m e ac aI dt cc) < 0.2 →
        0.99 ≤ cure_prob (stepDensity m e ac aI dt cc) →
        r.done = true ∧ r.reward = 1.1) := by
  refine ⟨_, envStep_eq m e ac aI epi dt cc lamda hn, fun hd => ?_, fun hnd hc => ?_⟩
  · have hd2 : death_threshold ≤ death_prob (stepDensity m e ac aI dt cc) := hd
    constructor
    · simp only [stepCore, if_pos hd2]
    · simp only [stepCore, if_pos hd2]
  · have hnd2 : ¬ death_threshold ≤ death_prob (stepDensity m e ac aI dt cc) :=
      not_le.mpr hnd
    have hc2 : cure_threshold ≤ cure_prob (stepDensity m e ac aI dt cc) := hc
    constructor
    · simp only [stepCore, if_neg hnd2, if_pos hc2]
    · simp only [stepCore, if_neg hnd2, if_pos hc2]
      norm_num

/-- C2 witness: on the model `m1` and bins `[1, 1/2, 1/2, 1/2]` the density
is `[12 + 4e-7, 1, 1, 1]`, whose death probability is EXACTLY the boundary
`0.2`; the step terminates with reward `-0.1`. -/
theorem step_terminal_boundary_witness :
    ∃ r, envStep m1 e0 1 1 0 (1/48) [1, 1/2, 1/2, 1/2] 0 = some r ∧
      r.done = true ∧ r.reward = -0.1 := by
  obtain ⟨r, hr, h1, -⟩ :=
    step_terminal_boundary m1 e0 1 1 0 (1/48) [1, 1/2, 1/2, 1/2] 0
      (by rw [iteraCyto_m1_dt])
  have hd : (0.2 : ℝ) ≤
      death_prob (stepDensity m1 e0 1 1 (1/48) [1, 1/2, 1/2, 1/2]) := by
    rw [stepDensity_m1, death_prob_m1_boundary]
  obtain ⟨hdone, hrew⟩ := h1 hd
  exact ⟨r, hr, hdone, hrew⟩

/-! ### Claim C5: the first-episode zero-delta rule -/

/-- C5: On every successful `Env.step` call with `epi = 0` the recorded
survival-probability delta is `0`, whatever the prior state of the
environment (prior episodes, prior steps); with `epi ≠ 0` the delta is the
new `state_survival` minus the previously recorded `last_state_survival`. -/
theorem step_delta_rule (m : RL_dNN) (e : EnvState) (ac aI : Fin 2)
    (epi : ℕ) (dt : ℚ) (cc : List ℝ) (lamda : ℝ)
    (hn : 1 ≤ m.iteraCyto dt) :
    ∃ r, envStep m e ac aI epi dt cc lamda = some r ∧
      r.now_state = e.state ++
        [((survival_prob (stepDensity m e ac aI dt cc) - (1 - death_threshold))
            / death_threshold,
          if epi = 0 then 0 else
            (survival_prob (stepDensity m e ac aI dt cc) - (1 - death_threshold))
              / death_threshold - e.last_state_survival)] := by
  refine ⟨_, envStep_eq m e ac aI epi dt cc lamda hn, ?_⟩
  simp only [stepCore]

/-- C5 witness: a first step with `epi = 0` from a freshly reset
environment records a zero delta. -/
theorem step_delta_rule_witness :
    ∃ r s, envStep m0 e0 1 0 0 (1/48) cc20 0 = some r ∧
      r.now_state = [(s, 0)] := by
  obtain ⟨r, hr, hstate⟩ :=
    step_delta_rule m0 e0 1 0 0 (1/48) cc20 0 (by rw [iteraCyto_m0_dt])
  refine ⟨r, (survival_prob (stepDensity m0 e0 1 0 (1/48) cc20) -
    (1 - death_threshold)) / death_threshold, hr, ?_⟩
  rw [hstate]
  simp [e0, envReset]

/-! ### Claim C6: environment history and time invariants -/

lemma dt_pos_of_itera (m : RL_dNN) (dt : ℚ) (hdt : 0 < m.dt_cyto)
    (hn : 1 ≤ m.iteraCyto dt) : 0 < dt := by
  rw [RL_dNN.iteraCyto, one_le_truncToZero_iff] at hn
  have h := (one_le_div hdt).mp hn
  linarith

lemma envStep_env_fields (m : RL_dNN) (e : EnvState) (ac aI : Fin 2)
    (epi : ℕ) (dt : ℚ) (cc : List ℝ) (lamda : ℝ) (r : StepRes)
    (h : envStep m e ac aI epi dt cc lamda = some r) :
    r.env.state.length = e.state.length + 1 ∧
    r.env.predict_CSF1RI_list.length = e.predict_CSF1RI_list.length + 1 ∧
    r.env.predict_IGF1RI_list.length = e.predict_IGF1RI_list.length + 1 ∧
    r.env.predict_TC_list.length = e.predict_TC_list.length + 1 ∧
    r.env.time = e.time + (dt : ℝ) := by
  have hn := envStep_some_itera m e ac aI epi dt cc lamda r h
  rw [envStep_eq m e ac aI epi dt cc lamda hn] at h
  injection h with h2
  subst h2
  refine ⟨?_, ?_, ?_, ?_, ?_⟩ <;> simp [stepCore]

lemma runSteps_invariant (m : RL_dNN) :
    ∀ (ins : List StepIn) (e efin : EnvState),
      runSteps m e ins = some efin →
      efin.state.length = e.state.length + ins.length ∧
      efin.predict_CSF1RI_list.length =
        e.predict_CSF1RI_list.length + ins.length ∧
      efin.predict_IGF1RI_list.length =
        e.predict_IGF1RI_list.length + ins.length ∧
      efin.predict_TC_list.length = e.predict_TC_list.length + ins.length ∧
      efin.time = e.time + (ins.map (fun i => ((i.dt : ℚ) : ℝ))).sum := by
  intro ins
  induction ins with
  | nil =>
    intro e efin h
    simp only [runSteps, Option.some.injEq] at h
    subst h
    simp
  | cons i is ih =>
    intro e efin h
    simp only [runSteps] at h
    cases hs : envStep m e i.ac i.aI i.epi i.dt i.cc i.lamda with
    | none =>
      rw [hs] at h
      exact absurd h (by simp)
    | some r =>
      rw [hs] at h
      obtain ⟨h1, h2, h3, h4, h5⟩ := ih r.env efin h
      obtain ⟨g1, g2, g3, g4, g5⟩ :=
        envStep_env_fields m e i.ac i.aI i.epi i.dt i.cc i.lamda r hs
      refine ⟨?_, ?_, ?_, ?_, ?_⟩
      · rw [h1, g1]
        simp only [List.length_cons]
        omega
      · rw [h2, g2]
        simp only [List.length_cons]
        omega
      · rw [h3, g3]
        simp only [List.length_cons]
        omega
      · rw [h4, g4]
        simp only [List.length_cons]
        omega
      · rw [h5, g5, List.map_cons, List.sum_cons]
        ring

/-- C6: For every sequence of steps after a `reset`: the observation
history starts empty and grows by one entry per step, each concentration
history starts at length 1 and grows by one entry per step (so all history
lengths equal `1 +` the number of steps), the elapsed time is the sum of the
supplied step intervals, and each individual successful step advances the
time by exactly its interval and never decreases it. -/
theorem env_history_time_invariants (m : RL_dNN) (initial : ℝ × ℝ × ℝ)
    (ins : List StepIn) (efin : EnvState) (hdt : 0 < m.dt_cyto)
    (h : runSteps m (envReset initial) ins = some efin) :
    (envReset initial).state = [] ∧
    (envReset initial).predict_CSF1RI_list.length = 1 ∧
    (envReset initial).predict_IGF1RI_list.length = 1 ∧
    (envReset initial).predict_TC_list.length = 1 ∧
    efin.state.length = ins.length ∧
    efin.predict_CSF1RI_list.length = 1 + ins.length ∧
    efin.predict_IGF1RI_list.length = 1 + ins.length ∧
    efin.predict_TC_list.length = 1 + ins.length ∧
    efin.time = (ins.map (fun i => ((i.dt : ℚ) : ℝ))).sum ∧
    (∀ (e2 : EnvState) (r : StepRes) (i : StepIn),
      envStep m e2 i.ac i.aI i.epi i.dt i.cc i.lamda = some r →
      r.env.time = e2.time + (i.dt : ℝ) ∧ e2.time ≤ r.env.time) := by
  obtain ⟨h1, h2, h3, h4, h5⟩ := runSteps_invariant m ins (envReset initial) efin h
  refine ⟨rfl, rfl, rfl, rfl, ?_, ?_, ?_, ?_, ?_, ?_⟩
  · rw [h1]
    simp [envReset]
  · rw [h2]
    simp [envReset, Nat.add_comm]
  · rw [h3]
    simp [envReset, Nat.add_comm]
  · rw [h4]
    simp [envReset, Nat.add_comm]
  · rw [h5]
    simp [envReset]
  · intro e2 r i hs
    have hn := envStep_some_itera m e2 i.ac i.aI i.epi i.dt i.cc i.lamda r hs
    have hpos := dt_pos_of_itera m i.dt hdt hn
    obtain ⟨-, -, -, -, g5⟩ :=
      envStep_env_fields m e2 i.ac i.aI i.epi i.dt i.cc i.lamda r hs
    refine ⟨g5, ?_⟩
    rw [g5]
    have hge : (0 : ℝ) ≤ (i.dt : ℝ) := by exact_mod_cast hpos.le
    linarith

/-- C6 witness: a reset followed by one concrete successful step yields an
observation history of length 1 and concentration histories of length 2. -/
theorem env_history_time_invariants_witness :
    ∃ efin, runSteps m0 (envReset (0, 0, 0.58))
        [⟨1, 0, 0, 1/48, cc20, 0⟩] = some efin ∧
      efin.state.length = 1 ∧ efin.predict_CSF1RI_list.length = 2 := by
  have hn : 1 ≤ m0.iteraCyto (1/48) := by rw [iteraCyto_m0_dt]
  obtain ⟨r, hr⟩ : ∃ r, envStep m0 (envReset (0, 0, 0.58)) 1 0 0 (1/48) cc20 0
      = some r := ⟨_, envStep_eq m0 _ 1 0 0 (1/48) cc20 0 hn⟩
  have hrun : runSteps m0 (envReset (0, 0, 0.58))
      [⟨1, 0, 0, 1/48, cc20, 0⟩] = some r.env := by
    simp only [runSteps, hr]
  obtain ⟨-, -, -, -, h5, h6, -, -, -, -⟩ :=
    env_history_time_invariants m0 (0, 0, 0.58) [⟨1, 0, 0, 1/48, cc20, 0⟩]
      r.env (by rw [m0_dt]; norm_num) hrun
  refine ⟨r.env, hrun, ?_, ?_⟩
  · simpa using h5
  · rw [h6]
    rfl

/-! ### Claim C4 (corrected): reward shaping on non-terminal steps -/

lemma cure_prob_ones20 :
    cure_prob (List.replicate 20 (1 : ℝ)) = 1 / (20 + 1e-7) := by
  norm_num [cure_prob, List.take_replicate]

/-- C4 counterexample: the claim predicts that on a non-terminal step with
`death_prob ≥ 0.1`, `survival_prob ≤ 0.9` and both action indices `0`, the
reward is `0.1 - 0.1*(1-0) - 0.1*(1-0) = -0.1`.  On the concrete all-ones
20-bin density the code instead subtracts
`0.1 * (dose_punish - action)` with `dose_punish = (2-1) + 1e-7`, giving
`-0.1 - 2e-8 ≠ -0.1`. -/
theorem step_reward_shaping_cex :
    ∃ r, envStep m0 e0 0 0 1 (1/48) cc20 0 = some r ∧
      r.done = false ∧ r.reward ≠ -0.1 ∧ r.reward = -0.1 - 2e-8 := by
  have hD := stepDensity_m0_cc20 e0 0 0
  have hn : 1 ≤ m0.iteraCyto (1/48) := by rw [iteraCyto_m0_dt]
  have hr := envStep_eq m0 e0 0 0 1 (1/48) cc20 0 hn
  rw [hD] at hr
  have hnd2 : ¬ death_threshold ≤ death_prob (List.replicate 20 (1 : ℝ)) := by
    rw [death_prob, survival_prob_ones20]
    norm_num [death_threshold]
  have hnc2 : ¬ cure_threshold ≤ cure_prob (List.replicate 20 (1 : ℝ)) := by
    rw [cure_prob_ones20]
    norm_num [cure_threshold]
  have hdu : death_threshold * 0.5 ≤ death_prob (List.replicate 20 (1 : ℝ)) := by
    rw [death_prob, survival_prob_ones20]
    norm_num [death_threshold]
  have hsu : survival_prob (List.replicate 20 (1 : ℝ)) ≤ 0.9 := by
    rw [survival_prob_ones20]
    norm_num
  have hsu2 : ¬ (0.9 : ℝ) < survival_prob (List.replicate 20 (1 : ℝ)) :=
    not_lt.mpr hsu
  refine ⟨_, hr, ?_, ?_, ?_⟩
  · simp only [stepCore, if_neg hnd2, if_neg hnc2]
  · simp only [stepCore, if_neg hnd2, if_neg hnc2, if_pos hdu, if_pos hsu,
      if_neg hsu2]
    norm_num
  · simp only [stepCore, if_neg hnd2, if_neg hnc2, if_pos hdu, if_pos hsu,
      if_neg hsu2]
    norm_num

/-- C4 (amended): on every non-terminal step the reward starts at `0.1`
and: if `death_prob ≥ 0.1` (the code writes `death_threshold * 0.5`) it is
reduced by `0.1 * ((max_action_index + 1e-7) - action_c_index)` — the
punish factor carries a `1e-7` epsilon on top of the maximal action index —
else if `action_c_index = 0` it gains `0.05`; if `survival_prob ≤ 0.9` it
is reduced by `0.1 * ((max_action_index + 1e-7) - action_I_index)`, else if
`action_I_index = 0` it gains `0.05`; and if `survival_prob > 0.9` it gains
`lamda * (elapsed_time - cumulative_dose_time)`. -/
theorem step_reward_shaping (m : RL_dNN) (e : EnvState) (ac aI : Fin 2)
    (epi : ℕ) (dt : ℚ) (cc : List ℝ) (lamda : ℝ)
    (hn : 1 ≤ m.iteraCyto dt)
    (hnd : ¬ (0.2 : ℝ) ≤ death_prob (stepDensity m e ac aI dt cc))
    (hnc : ¬ (0.99 : ℝ) ≤ cure_prob (stepDensity m e ac aI dt cc)) :
    ∃ r, envStep m e ac aI epi dt cc lamda = some r ∧ r.done = false ∧
      r.reward = 0.1 +
        (if (0.1 : ℝ) ≤ death_prob (stepDensity m e ac aI dt cc) then
            -(0.1 * ((1 + 1e-7) - ((ac : ℕ) : ℝ)))
          else if (ac : ℕ) = 0 then 0.05 else 0) +
        (if survival_prob (stepDensity m e ac aI dt cc) ≤ 0.9 then
            -(0.1 * ((1 + 1e-7) - ((aI : ℕ) : ℝ)))
          else if (aI : ℕ) = 0 then 0.05 else 0) +
        (if (0.9 : ℝ) < survival_prob (stepDensity m e ac aI dt cc) then
            lamda * ((e.time + (dt : ℝ)) -
              (e.CSF1RI_dose_cum + action_c_space ac * (dt : ℝ)))
          else 0) := by
  have hnd2 : ¬ death_threshold ≤ death_prob (stepDensity m e ac aI dt cc) := hnd
  have hnc2 : ¬ cure_threshold ≤ cure_prob (stepDensity m e ac aI dt cc) := hnc
  have hhalf : (death_threshold * 0.5 : ℝ) = 0.1 := by
    norm_num [death_threshold]
  have hdp : ((2 : ℝ) - 1) + 1e-7 = 1 + 1e-7 := by norm_num
  refine ⟨_, envStep_eq m e ac aI epi dt cc lamda hn, ?_, ?_⟩
  · simp only [stepCore, if_neg hnd2, if_neg hnc2]
  · simp only [stepCore, if_neg hnd2, if_neg hnc2, hhalf, hdp]
    split_ifs <;> ring

/-- C4 witness (amended claim): a concrete non-terminal step on the
all-ones 20-bin density. -/
theorem step_reward_shaping_witness :
    ∃ r, envStep m0 e0 0 0 1 (1/48) cc20 0 = some r ∧ r.done = false := by
  have hnd : ¬ (0.2 : ℝ) ≤ death_prob (stepDensity m0 e0 0 0 (1/48) cc20) := by
    rw [stepDensity_m0_cc20, death_prob, survival_prob_ones20]
    norm_num
  have hnc : ¬ (0.99 : ℝ) ≤ cure_prob (stepDensity m0 e0 0 0 (1/48) cc20) := by
    rw [stepDensity_m0_cc20, cure_prob_ones20]
    norm_num
  obtain ⟨r, hr, hdone, -⟩ :=
    step_reward_shaping m0 e0 0 0 1 (1/48) cc20 0
      (by rw [iteraCyto_m0_dt]) hnd hnc
  exact ⟨r, hr, hdone⟩

/-! ### Claim C8 (corrected): the trailing-bin count in `Env.step` -/

/-- C8 counterexample: `Env.step` has no trailing-bin-count parameter; on
the all-ones 20-bin density the recorded survival deviation is the
hard-coded 3-trailing-bin value `(17/(20+1e-7) - 0.8)/0.2`, which differs
from the 15-trailing-bin value `(5/(20+1e-7) - 0.8)/0.2` that the
"switch"-scenario count would give, so the caller cannot have chosen the
count. -/
theorem survival_trailing_bins_cex :
    ∃ r d, envStep m0 e0 1 1 1 (1/48) cc20 0 = some r ∧
      r.now_state.getLast? =
        some ((17 / (20 + 1e-7) - (1 - 0.2)) / 0.2, d) ∧
      ((17 / (20 + 1e-7) - (1 - 0.2)) / 0.2 : ℝ) ≠
        (5 / (20 + 1e-7) - (1 - 0.2)) / 0.2 := by
  have hD := stepDensity_m0_cc20 e0 1 1
  have hn : 1 ≤ m0.iteraCyto (1/48) := by rw [iteraCyto_m0_dt]
  have hr := envStep_eq m0 e0 1 1 1 (1/48) cc20 0 hn
  rw [hD] at hr
  refine ⟨_, (survival_prob (List.replicate 20 (1 : ℝ)) -
      (1 - death_threshold)) / death_threshold - e0.last_state_survival,
    hr, ?_, ?_⟩
  · simp only [stepCore, survival_prob_ones20]
    rw [List.getLast?_append_cons]
    rfl
  · norm_num

/-- C8 (amended): the number of trailing density bins excluded when
`Env.step` computes the survival probability is hard-coded to `3` inside
the step function (it is not a caller-supplied parameter): the recorded
survival deviation is always derived from the density mass excluding the
top 3 bins over the epsilon-guarded total mass. -/
theorem survival_trailing_bins (m : RL_dNN) (e : EnvState) (ac aI : Fin 2)
    (epi : ℕ) (dt : ℚ) (cc : List ℝ) (lamda : ℝ)
    (hn : 1 ≤ m.iteraCyto dt) :
    ∃ r d, envStep m e ac aI epi dt cc lamda = some r ∧
      r.now_state.getLast? = some
        ((((stepDensity m e ac aI dt cc).take
              ((stepDensity m e ac aI dt cc).length - 3)).sum /
            ((stepDensity m e ac aI dt cc).sum + 1e-7) -
          (1 - death_threshold)) / death_threshold, d) := by
  refine ⟨_, if epi = 0 then 0 else
      (survival_prob (stepDensity m e ac aI dt cc) - (1 - death_threshold)) /
        death_threshold - e.last_state_survival,
    envStep_eq m e ac aI epi dt cc lamda hn, ?_⟩
  simp only [stepCore]
  rw [List.getLast?_append_cons]
  rfl

/-- C8 witness (amended claim): the 3-trailing-bin survival deviation is
recorded on a concrete step. -/
theorem survival_trailing_bins_witness :
    ∃ r d, envStep m0 e0 1 1 1 (1/48) cc20 0 = some r ∧
      r.now_state.getLast? = some
        ((((stepDensity m0 e0 1 1 (1/48) cc20).take
              ((stepDensity m0 e0 1 1 (1/48) cc20).length - 3)).sum /
            ((stepDensity m0 e0 1 1 (1/48) cc20).sum + 1e-7) -
          (1 - death_threshold)) / death_threshold, d) :=
  survival_trailing_bins m0 e0 1 1 1 (1/48) cc20 0 (by rw [iteraCyto_m0_dt])
